import Mathlib

/-!
A shallow embedding of the retroflow-backend real-time session engine:
the socket handler (`cast_vote`, `change_phase`, `create_connection`) and
the session REST routes (join with capacity/name checks).  The durable
store is modelled as in-memory lists of rows; Prisma queries become list
filters/finds in row order, and each socket handler becomes a function
from a database state (plus the request payload) to a new database state
together with the emitted outcome.  Ids are strings (UUIDs in the real
system); fresh ids produced by the store are passed in as arguments.
-/

namespace RetroFlow

/-- The two fixed response categories (Prisma enum). -/
inductive Category
  | WENT_WELL
  | DIDNT_GO_WELL
deriving DecidableEq, Repr

/-- A row of the Response table. `positionX`/`positionY` are the 2D board
position (non-null numbers in the schema, so the handler's `|| 0` fallback
is the identity), and `groupId` is the nullable group assignment. -/
structure Response where
  id : String
  sessionId : String
  participantId : String
  content : String
  category : Category
  positionX : Int
  positionY : Int
  groupId : Option String
deriving DecidableEq, Repr

/-- A row of the Group table; `voteCount` is the derived total. -/
structure Group where
  id : String
  sessionId : String
  label : String
  color : String
  positionX : Int
  positionY : Int
  voteCount : Nat
deriving DecidableEq, Repr

/-- A row of the Vote table, keyed by (participantId, groupId). -/
structure Vote where
  sessionId : String
  participantId : String
  groupId : String
  voteCount : Nat
deriving DecidableEq, Repr

/-- A row of the Participant table; `socketId` is the bound live
connection (null when offline). -/
structure Participant where
  id : String
  sessionId : String
  displayName : String
  avatarId : String
  isHost : Bool
  socketId : Option String
deriving DecidableEq, Repr

/-- A row of the Connection table: an edge between two responses. -/
structure Connection where
  id : String
  sessionId : String
  fromResponseId : String
  toResponseId : String
deriving DecidableEq, Repr

/-- A row of the Session table.  The phase enum is opaque to the engine,
so it is modelled as a string tag.  Times are milliseconds since epoch. -/
structure Session where
  id : String
  inviteCode : String
  currentPhase : String
  timerDuration : Option Nat
  timerEndTime : Option Nat
deriving DecidableEq, Repr

/-- The whole durable store, one list of rows per table, in row order. -/
structure DB where
  sessions : List Session
  participants : List Participant
  responses : List Response
  groups : List Group
  connections : List Connection
  votes : List Vote
deriving DecidableEq, Repr

/-- JS `s.length` (character count). -/
def strLen (s : String) : Nat := s.data.length

/-- JS `s.substring(0, n)` (first `n` characters). -/
def strTake (s : String) (n : Nat) : String := String.mk (s.data.take n)

/-- Character-list test that `p` is an initial segment of `l`. -/
def listIsInit : List Char → List Char → Bool
  | [], _ => true
  | _ :: _, [] => false
  | p :: ps, c :: cs => p == c && listIsInit ps cs

/-- JS `s.startsWith(p)`. -/
def strStarts (s p : String) : Bool := listIsInit p.data s.data

/-- JS `s.substring(n)` (drop the first `n` characters). -/
def strDrop (s : String) (n : Nat) : String := String.mk (s.data.drop n)

/-- JS `s.toLowerCase()`. -/
def strToLower (s : String) : String := String.mk (s.data.map Char.toLower)

/-- Splitter for JS `s.split(sep)` with a non-empty separator, running on
character lists with explicit fuel (the fuel is always at least the input
length, so the zero-fuel branch is unreachable). -/
def splitFuel (sep : List Char) : Nat → List Char → List Char → List (List Char)
  | _, [], acc => [acc.reverse]
  | 0, l, acc => [acc.reverse ++ l]
  | fuel + 1, c :: cs, acc =>
    if listIsInit sep (c :: cs) then
      acc.reverse :: splitFuel sep fuel ((c :: cs).drop sep.length) []
    else
      splitFuel sep fuel cs (c :: acc)

/-- JS `s.split(sep)` for a non-empty separator. -/
def strSplit (s sep : String) : List String :=
  (splitFuel sep.data s.data.length s.data []).map String.mk

/-- Hexadecimal digit test, case insensitive (the `[0-9a-f]` class under
the `/i` flag). -/
def isHexDigit (c : Char) : Bool :=
  c.isDigit || (('a' ≤ c && c ≤ 'f') || ('A' ≤ c && c ≤ 'F'))

/-- The handler's UUID shape test
`/^[0-9a-f]{8}-[0-9a-f]{4}-[0-9a-f]{4}-[0-9a-f]{4}-[0-9a-f]{12}$/i`:
36 characters, dashes at indices 8, 13, 18 and 23, hex everywhere else. -/
def isUuidFormat (s : String) : Bool :=
  let cs := s.data
  cs.length == 36 &&
    (List.range 36).all (fun i =>
      if i == 8 || i == 13 || i == 18 || i == 23 then cs.getD i 'g' == '-'
      else isHexDigit (cs.getD i 'g'))

/-- `prisma.vote.aggregate` of `voteCount` over `{ sessionId, participantId }`:
the participant's current total allocation across all groups. -/
def participantTotal (votes : List Vote) (sessionId participantId : String) : Nat :=
  ((votes.filter (fun v => v.sessionId == sessionId && v.participantId == participantId)).map
    (fun v => v.voteCount)).sum

/-- The handler's `getExistingVoteCount`: `prisma.vote.findUnique` on the
(participantId, groupId) key, defaulting to 0 when the row is absent. -/
def existingVoteCount (votes : List Vote) (participantId groupId : String) : Nat :=
  ((votes.find? (fun v => v.participantId == participantId && v.groupId == groupId)).map
    (fun v => v.voteCount)).getD 0

/-- `prisma.vote.aggregate` of `voteCount` over `{ groupId }`: the group's
total recomputed from its Vote rows. -/
def groupTotal (votes : List Vote) (groupId : String) : Nat :=
  ((votes.filter (fun v => v.groupId == groupId)).map (fun v => v.voteCount)).sum

/-- Outcome of a `cast_vote` command: the resolved group id and the new
group total broadcast in `votes_updated`, or the error message emitted to
the caller.  In both cases the accompanying `DB` is the committed state. -/
inductive VoteOutcome
  | ok (actualGroupId : String) (totalGroupVotes : Nat)
  | err (msg : String)
deriving DecidableEq, Repr

/-- Outcome of resolving a vote target: the persisted group id, or an
error message.  The accompanying `DB` carries any materialization that
was committed during resolution. -/
inductive ResolveOutcome
  | ok (groupId : String)
  | err (msg : String)
deriving DecidableEq, Repr

/-- Resolution of a `cast_vote` target (socket handler lines 383-529).
A `connected-uuid1--uuid2--...` id is parsed, validated against the UUID
regex, and either reuses the group of an already-grouped referenced
response or creates a group labelled from the truncated concatenated
contents and assigns every response with a referenced id to it.  An
`individual-responseId` id reuses the session group containing that
response, or creates a single-response group.  Any other string is
passed through unchanged as a persisted group id.  JS
`replace('connected-', '')` removes the first occurrence, which for a
string with that prefix is `drop 10` (and `drop 11` for `individual-`). -/
def resolveTarget (db : DB) (sessionId groupId freshGroupId : String) :
    DB × ResolveOutcome :=
  if strStarts groupId "connected-" then
    let idsString := strDrop groupId 10
    let responseIds := strSplit idsString "--"
    if responseIds.length == 0 || responseIds.any (fun i => !(isUuidFormat i)) then
      (db, ResolveOutcome.err "Invalid connected group format")
    else
      match db.responses.filter
          (fun r => responseIds.contains r.id && r.sessionId == sessionId
            && r.groupId.isSome) with
      | r :: _ => (db, ResolveOutcome.ok (r.groupId.getD ""))
      | [] =>
        match db.responses.filter
            (fun r => responseIds.contains r.id && r.sessionId == sessionId
              && r.groupId.isNone) with
        | [] => (db, ResolveOutcome.err "Connected responses not found or already grouped")
        | r0 :: rest =>
          let groupLabel := " • ".intercalate ((r0 :: rest).map (fun r =>
            if strLen r.content > 20 then strTake r.content 20 ++ "..." else r.content))
          let newGroup : Group :=
            { id := freshGroupId
              sessionId := sessionId
              label := if strLen groupLabel > 80 then strTake groupLabel 80 ++ "..." else groupLabel
              color := if r0.category == Category.WENT_WELL then "#10b981" else "#ef4444"
              positionX := r0.positionX
              positionY := r0.positionY
              voteCount := 0 }
          ({ db with
              groups := db.groups ++ [newGroup]
              responses := db.responses.map (fun r =>
                if responseIds.contains r.id then { r with groupId := some freshGroupId } else r) },
            ResolveOutcome.ok freshGroupId)
  else if strStarts groupId "individual-" then
    let responseId := strDrop groupId 11
    match db.groups.find? (fun g => g.sessionId == sessionId &&
        db.responses.any (fun r => r.id == responseId && r.groupId == some g.id)) with
    | some g => (db, ResolveOutcome.ok g.id)
    | none =>
      match db.responses.find? (fun r => r.id == responseId) with
      | none => (db, ResolveOutcome.err "Response not found")
      | some response =>
        let newGroup : Group :=
          { id := freshGroupId
            sessionId := sessionId
            label := if strLen response.content > 30
              then strTake response.content 30 ++ "..." else response.content
            color := if response.category == Category.WENT_WELL then "#10b981" else "#ef4444"
            positionX := response.positionX
            positionY := response.positionY
            voteCount := 0 }
        ({ db with
            groups := db.groups ++ [newGroup]
            responses := db.responses.map (fun r =>
              if r.id == responseId then { r with groupId := some freshGroupId } else r) },
          ResolveOutcome.ok freshGroupId)
  else (db, ResolveOutcome.ok groupId)

/-- `prisma.group.update` of the recomputed total (handler lines 556-567).
The relational store enforces the Vote→Group foreign key, so when no group
row with this id exists the update throws and the handler's catch block
reports the generic failure message. -/
def updateGroupCount (db : DB) (actualGroupId : String) : DB × VoteOutcome :=
  if db.groups.any (fun g => g.id == actualGroupId) then
    let total := groupTotal db.votes actualGroupId
    ({ db with groups := db.groups.map (fun g =>
        if g.id == actualGroupId then { g with voteCount := total } else g) },
      VoteOutcome.ok actualGroupId total)
  else (db, VoteOutcome.err "Failed to cast vote")

/-- The voting-ledger phase of `cast_vote` (handler lines 531-567): the
quota check against the participant's current total minus the existing
allocation to the resolved target, then delete (count 0) or upsert, then
the recomputed group total.  Creating a vote row for a group id with no
group row violates the store's foreign key, surfacing as the generic
failure message with no row written. -/
def applyVote (db : DB) (sessionId participantId actualGroupId : String)
    (voteCount : Nat) : DB × VoteOutcome :=
  let currentTotal := participantTotal db.votes sessionId participantId
  if (currentTotal : Int) - (existingVoteCount db.votes participantId actualGroupId : Int)
      + (voteCount : Int) > 4 then
    (db, VoteOutcome.err "Insufficient votes remaining")
  else if voteCount == 0 then
    updateGroupCount
      { db with votes := db.votes.filter (fun v =>
          !(v.participantId == participantId && v.groupId == actualGroupId)) }
      actualGroupId
  else if db.votes.any (fun v => v.participantId == participantId
      && v.groupId == actualGroupId) then
    updateGroupCount
      { db with votes := db.votes.map (fun v =>
          if v.participantId == participantId && v.groupId == actualGroupId
          then { v with voteCount := voteCount } else v) }
      actualGroupId
  else if db.groups.any (fun g => g.id == actualGroupId) then
    updateGroupCount
      { db with votes := db.votes ++
          [{ sessionId := sessionId, participantId := participantId,
             groupId := actualGroupId, voteCount := voteCount }] }
      actualGroupId
  else (db, VoteOutcome.err "Failed to cast vote")

/-- The `cast_vote` handler (socket handler lines 379-610): payload
validation (the schema bounds `voteCount` to [0,4]; a failed parse is
caught and reported as the generic failure), target resolution with any
materialization committed as it happens, then the ledger phase. -/
def castVote (db : DB) (sessionId participantId groupId : String)
    (voteCount : Nat) (freshGroupId : String) : DB × VoteOutcome :=
  if voteCount > 4 then (db, VoteOutcome.err "Failed to cast vote")
  else
    match resolveTarget db sessionId groupId freshGroupId with
    | (db1, ResolveOutcome.err msg) => (db1, VoteOutcome.err msg)
    | (db1, ResolveOutcome.ok actualGroupId) =>
      applyVote db1 sessionId participantId actualGroupId voteCount

/-- The `change_phase` handler (socket handler lines 122-165).  The
requester is authorized when the first participant of the session bound
to their socket is the host.  The local `timerEndTime` starts as null, is
left null by `stopTimer`, is set to now + duration·1000 by a truthy
`timerDuration`, and otherwise stays null — which the update then
persists.  `timerDuration || session.timerDuration` keeps the prior
duration when the new one is absent or 0 (JS falsiness).  Returns the
updated store and the error message, if any. -/
def changePhase (db : DB) (socketId : String) (sessionId phase : String)
    (timerDuration : Option Nat) (stopTimer : Option Bool) (now : Nat) :
    DB × Option String :=
  match db.sessions.find? (fun s => s.id == sessionId) with
  | none => (db, some "Unauthorized to change phase")
  | some session =>
    let bound := (db.participants.filter (fun p =>
      p.sessionId == sessionId && p.socketId == some socketId)).head?
    if !((bound.map (fun p => p.isHost)).getD false) then
      (db, some "Unauthorized to change phase")
    else
      let stop := stopTimer.getD false
      let dur : Option Nat := match timerDuration with
        | some d => if d == 0 then none else some d
        | none => none
      let timerEndTime : Option Nat :=
        if stop then none
        else match dur with
          | some d => some (now + d * 1000)
          | none => none
      ({ db with sessions := db.sessions.map (fun s =>
          if s.id == sessionId then
            { s with
                currentPhase := phase
                timerDuration := match dur with
                  | some d => some d
                  | none => session.timerDuration
                timerEndTime := if stop then none else timerEndTime }
          else s) },
        none)

/-- The `create_connection` handler (socket handler lines 302-350):
reject when an edge between the two responses already exists in the
session in either direction, reject when the two endpoint ids do not
yield exactly two response rows of the session, otherwise persist the
edge.  Returns the updated store and the error message, if any. -/
def createConnection (db : DB) (sessionId fromResponseId toResponseId : String)
    (freshConnectionId : String) : DB × Option String :=
  match db.connections.find? (fun c => c.sessionId == sessionId &&
      ((c.fromResponseId == fromResponseId && c.toResponseId == toResponseId) ||
       (c.fromResponseId == toResponseId && c.toResponseId == fromResponseId))) with
  | some _ => (db, some "Connection already exists")
  | none =>
    let endpoints := db.responses.filter (fun r =>
      (r.id == fromResponseId || r.id == toResponseId) && r.sessionId == sessionId)
    if endpoints.length != 2 then
      (db, some "Invalid responses for connection")
    else
      ({ db with connections := db.connections ++
          [{ id := freshConnectionId, sessionId := sessionId,
             fromResponseId := fromResponseId, toResponseId := toResponseId }] },
        none)

/-- Outcome of the join route: the created participant's id, or the
error message of the rejection response. -/
inductive JoinOutcome
  | ok (participantId : String)
  | err (msg : String)
deriving DecidableEq, Repr

/-- The `POST /join` session route (session routes lines 72-123): payload
validation (invite code of length 8, display name 1-50, avatar 1-20),
session lookup by invite code, the 15-participant capacity check, the
case-insensitive display-name uniqueness check, then participant
creation. -/
def joinSession (db : DB) (inviteCode displayName avatarId : String)
    (freshParticipantId : String) : DB × JoinOutcome :=
  if strLen inviteCode != 8 || strLen displayName == 0 || strLen displayName > 50
      || strLen avatarId == 0 || strLen avatarId > 20 then
    (db, JoinOutcome.err "Invalid request data")
  else
    match db.sessions.find? (fun s => s.inviteCode == inviteCode) with
    | none => (db, JoinOutcome.err "Session not found")
    | some session =>
      let participants := db.participants.filter (fun p => p.sessionId == session.id)
      if participants.length ≥ 15 then
        (db, JoinOutcome.err "Session is full")
      else if participants.any (fun p =>
          strToLower p.displayName == strToLower displayName) then
        (db, JoinOutcome.err "Display name already taken")
      else
        ({ db with participants := db.participants ++
            [{ id := freshParticipantId, sessionId := session.id,
               displayName := displayName, avatarId := avatarId,
               isHost := false, socketId := none }] },
          JoinOutcome.ok freshParticipantId)

/-- Primary-key discipline of the store: response ids are pairwise
distinct. -/
def respIdsNodup (db : DB) : Prop := (db.responses.map (fun r => r.id)).Nodup

/-- Primary-key discipline of the store: group ids are pairwise
distinct. -/
def groupIdsNodup (db : DB) : Prop := (db.groups.map (fun g => g.id)).Nodup

/-- Foreign-key discipline of the store: every vote row references an
existing group row. -/
def votesFk (db : DB) : Prop := ∀ v ∈ db.votes, ∃ g ∈ db.groups, g.id = v.groupId

/-- The connection-uniqueness invariant: at most one edge per unordered
response pair within a session. -/
def edgeUnique (db : DB) : Prop :=
  ∀ c1 ∈ db.connections, ∀ c2 ∈ db.connections,
    c1.sessionId = c2.sessionId →
    ((c1.fromResponseId = c2.fromResponseId ∧ c1.toResponseId = c2.toResponseId) ∨
     (c1.fromResponseId = c2.toResponseId ∧ c1.toResponseId = c2.fromResponseId)) →
    c1 = c2

/-- Fixture: a session with a host (`p1`, bound to socket `k1`), a second
participant (`p2`, bound to `k2`), one ungrouped 40-character response
`r1`, two persisted groups and an existing 3-vote allocation of `p1` on
`g1`.  The session has a running timer ending at 999000. -/
def fxA : DB :=
  { sessions := [{ id := "s1"
                   inviteCode := "ABCD1234"
                   currentPhase := "VOTING"
                   timerDuration := some 60
                   timerEndTime := some 999000 }]
    participants := [
      { id := "p1"
        sessionId := "s1"
        displayName := "Alice"
        avatarId := "a1"
        isHost := true
        socketId := some "k1" },
      { id := "p2"
        sessionId := "s1"
        displayName := "Bob"
        avatarId := "a2"
        isHost := false
        socketId := some "k2" }]
    responses := [
      { id := "r1"
        sessionId := "s1"
        participantId := "p2"
        content := "aaaaaaaaaaaaaaaaaaaaaaaaaaaaaaaaaaaaaaaa"
        category := Category.WENT_WELL
        positionX := 7
        positionY := 8
        groupId := none }]
    groups := [
      { id := "g1"
        sessionId := "s1"
        label := "Group one"
        color := "#10b981"
        positionX := 0
        positionY := 0
        voteCount := 3 },
      { id := "g2"
        sessionId := "s1"
        label := "Group two"
        color := "#ef4444"
        positionX := 5
        positionY := 5
        voteCount := 0 }]
    connections := []
    votes := [{ sessionId := "s1"
                participantId := "p1"
                groupId := "g1"
                voteCount := 3 }] }

/-- Fixture: like `fxA` but with two ungrouped UUID-identified responses
(for connected-chain targets), a single empty group and no votes yet. -/
def fxB : DB :=
  { fxA with
      responses := [
        { id := "aaaaaaaa-aaaa-aaaa-aaaa-aaaaaaaaaaaa"
          sessionId := "s1"
          participantId := "p2"
          content := "first response content text here"
          category := Category.WENT_WELL
          positionX := 1
          positionY := 2
          groupId := none },
        { id := "bbbbbbbb-bbbb-bbbb-bbbb-bbbbbbbbbbbb"
          sessionId := "s1"
          participantId := "p1"
          content := "second response content text here also long"
          category := Category.DIDNT_GO_WELL
          positionX := 3
          positionY := 4
          groupId := none }]
      groups := [
        { id := "g1"
          sessionId := "s1"
          label := "Group one"
          color := "#10b981"
          positionX := 0
          positionY := 0
          voteCount := 0 }]
      votes := [] }

/-- The connected-chain virtual identifier naming `fxB`'s two responses. -/
def fxBChain : String :=
  "connected-aaaaaaaa-aaaa-aaaa-aaaa-aaaaaaaaaaaa--bbbbbbbb-bbbb-bbbb-bbbb-bbbbbbbbbbbb"

/-- Fixture: like `fxA` but with r1 already assigned to the persisted
group g1. -/
def fxC : DB :=
  { fxA with responses := [
      { id := "r1"
        sessionId := "s1"
        participantId := "p2"
        content := "aaaaaaaaaaaaaaaaaaaaaaaaaaaaaaaaaaaaaaaa"
        category := Category.WENT_WELL
        positionX := 7
        positionY := 8
        groupId := some "g1" }] }

/-- Fixture: like `fxB` but with the first UUID response already assigned
to the persisted group g1. -/
def fxD : DB :=
  { fxB with responses := [
      { id := "aaaaaaaa-aaaa-aaaa-aaaa-aaaaaaaaaaaa"
        sessionId := "s1"
        participantId := "p2"
        content := "first response content text here"
        category := Category.WENT_WELL
        positionX := 1
        positionY := 2
        groupId := some "g1" },
      { id := "bbbbbbbb-bbbb-bbbb-bbbb-bbbbbbbbbbbb"
        sessionId := "s1"
        participantId := "p1"
        content := "second response content text here also long"
        category := Category.DIDNT_GO_WELL
        positionX := 3
        positionY := 4
        groupId := none }] }

/-- Fixture: a session that already holds 15 participants. -/
def fxFull : DB :=
  { sessions := [{ id := "s2"
                   inviteCode := "FULLCODE"
                   currentPhase := "BRAINSTORM"
                   timerDuration := none
                   timerEndTime := none }]
    participants := (List.range 15).map (fun i =>
      { id := String.mk [Char.ofNat (97 + i)]
        sessionId := "s2"
        displayName := String.mk [Char.ofNat (97 + i)]
        avatarId := "av"
        isHost := i == 0
        socketId := none })
    responses := []
    groups := []
    connections := []
    votes := [] }

theorem find?_eq_of_unique {α : Type} {p : α → Bool} {l : List α} {a : α}
    (ha : a ∈ l) (hpa : p a = true)
    (huni : ∀ b ∈ l, p b = true → b = a) : l.find? p = some a := by
  induction l with
  | nil => cases ha
  | cons x xs ih =>
    by_cases hx : p x = true
    · have hxa : x = a := huni x (List.mem_cons_self x xs) hx
      subst hxa
      exact List.find?_cons_of_pos xs hx
    · rw [List.find?_cons_of_neg xs hx]
      rcases List.mem_cons.mp ha with h | h
      · subst h; exact absurd hpa hx
      · exact ih h (fun b hb hpb => huni b (List.mem_cons_of_mem x hb) hpb)

theorem nodup_key_inj {α : Type} (key : α → String) {l : List α}
    (h : (l.map key).Nodup) {a b : α} (ha : a ∈ l) (hb : b ∈ l)
    (hk : key a = key b) : a = b :=
  List.inj_on_of_nodup_map h ha hb hk

theorem updateGroupCount_ok_inv {db : DB} {gid : String} {db' : DB}
    {g' : String} {t : Nat}
    (h : updateGroupCount db gid = (db', VoteOutcome.ok g' t)) :
    g' = gid ∧ t = groupTotal db.votes gid ∧ db'.votes = db.votes ∧
    db'.responses = db.responses ∧ db'.sessions = db.sessions ∧
    db'.participants = db.participants ∧ db'.connections = db.connections ∧
    db'.groups = db.groups.map (fun x =>
      if x.id == gid then { x with voteCount := groupTotal db.votes gid } else x) ∧
    (∀ grp ∈ db'.groups, grp.id = gid → grp.voteCount = t) := by
  unfold updateGroupCount at h
  split at h
  · injection h with h1 h2
    injection h2 with h3 h4
    subst h1; subst h3; subst h4
    refine ⟨rfl, rfl, rfl, rfl, rfl, rfl, rfl, rfl, ?_⟩
    intro grp hmem hid
    rcases List.mem_map.mp hmem with ⟨x, _, hx⟩
    by_cases hxid : x.id == gid
    · rw [if_pos hxid] at hx
      rw [← hx]
    · rw [if_neg hxid] at hx
      subst hx
      exact absurd (beq_iff_eq.mpr hid) hxid
  · exact absurd h (by simp)

theorem applyVote_ok_inv {db : DB} {sid pid g : String} {cnt : Nat}
    {db' : DB} {g' : String} {t : Nat}
    (h : applyVote db sid pid g cnt = (db', VoteOutcome.ok g' t)) :
    g' = g ∧
    db'.responses = db.responses ∧ db'.sessions = db.sessions ∧
    db'.participants = db.participants ∧ db'.connections = db.connections ∧
    (∃ total, db'.groups = db.groups.map (fun x =>
      if x.id == g then { x with voteCount := total } else x)) ∧
    t = groupTotal db'.votes g ∧
    (∀ grp ∈ db'.groups, grp.id = g → grp.voteCount = t) ∧
    ((cnt = 0 ∧ db'.votes = db.votes.filter (fun v =>
        !(v.participantId == pid && v.groupId == g))) ∨
     (cnt ≠ 0 ∧ db.votes.any (fun v => v.participantId == pid && v.groupId == g) = true ∧
        db'.votes = db.votes.map (fun v =>
          if v.participantId == pid && v.groupId == g
          then { v with voteCount := cnt } else v)) ∨
     (cnt ≠ 0 ∧ db.votes.any (fun v => v.participantId == pid && v.groupId == g) = false ∧
        db'.votes = db.votes ++
          [{ sessionId := sid, participantId := pid, groupId := g, voteCount := cnt }])) := by
  simp only [applyVote] at h
  split at h
  · exact absurd h (by simp)
  case isFalse hq =>
    split at h
    case isTrue hc0 =>
      rcases updateGroupCount_ok_inv h with
        ⟨h1, h2, h3, h4, h5, h6, h7, h8, h9⟩
      refine ⟨h1, h4, h5, h6, h7, ⟨groupTotal _ g, h8⟩, ?_, h9,
        Or.inl ⟨by simpa using hc0, h3⟩⟩
      rw [h2, h3]
    case isFalse hc0 =>
      split at h
      case isTrue hany =>
        rcases updateGroupCount_ok_inv h with
          ⟨h1, h2, h3, h4, h5, h6, h7, h8, h9⟩
        refine ⟨h1, h4, h5, h6, h7, ⟨groupTotal _ g, h8⟩, ?_,
          h9, Or.inr (Or.inl ⟨by simpa using hc0, hany, h3⟩)⟩
        rw [h2, h3]
      case isFalse hany =>
        split at h
        · rcases updateGroupCount_ok_inv h with
            ⟨h1, h2, h3, h4, h5, h6, h7, h8, h9⟩
          refine ⟨h1, h4, h5, h6, h7, ⟨groupTotal _ g, h8⟩, ?_,
            h9, Or.inr (Or.inr ⟨by simpa using hc0, by simpa using hany, h3⟩)⟩
          rw [h2, h3]
        · exact absurd h (by simp)

theorem castVote_ok_inv {db : DB} {sid pid vid : String} {cnt : Nat}
    {f : String} {db' : DB} {g : String} {t : Nat}
    (h : castVote db sid pid vid cnt f = (db', VoteOutcome.ok g t)) :
    cnt ≤ 4 ∧ ∃ dbr, resolveTarget db sid vid f = (dbr, ResolveOutcome.ok g) ∧
      applyVote dbr sid pid g cnt = (db', VoteOutcome.ok g t) := by
  unfold castVote at h
  split at h
  · exact absurd h (by simp)
  case isFalse hle =>
    split at h
    case h_1 db1 msg heq => exact absurd h (by simp)
    case h_2 db1 a heq =>
      have hga : g = a := (applyVote_ok_inv h).1
      subst hga
      exact ⟨Nat.le_of_not_lt hle, db1, heq, h⟩

theorem resolveTarget_votes (db : DB) (sid vid f : String) :
    ((resolveTarget db sid vid f).1).votes = db.votes := by
  simp only [resolveTarget]
  split
  · split
    · rfl
    · split
      · rfl
      · split
        · rfl
        · rfl
  · split
    · split
      · rfl
      · split
        · rfl
        · rfl
    · rfl

theorem resolveTarget_groups_mono (db : DB) (sid vid f : String)
    {g : Group} (hg : g ∈ db.groups) :
    g ∈ ((resolveTarget db sid vid f).1).groups := by
  simp only [resolveTarget]
  split
  · split
    · exact hg
    · split
      · exact hg
      · split
        · exact hg
        · exact List.mem_append_left _ hg
  · split
    · split
      · exact hg
      · split
        · exact hg
        · exact List.mem_append_left _ hg
    · exact hg

theorem resolveTarget_err {db : DB} {sid vid f : String} {dbr : DB} {m : String}
    (h : resolveTarget db sid vid f = (dbr, ResolveOutcome.err m)) : dbr = db := by
  simp only [resolveTarget] at h
  split at h
  · split at h
    · injection h with h1 h2
      exact h1.symm
    · split at h
      · exact absurd h (by simp)
      · split at h
        · injection h with h1 h2
          exact h1.symm
        · exact absurd h (by simp)
  · split at h
    · split at h
      · exact absurd h (by simp)
      · split at h
        · injection h with h1 h2
          exact h1.symm
        · exact absurd h (by simp)
    · exact absurd h (by simp)

theorem applyVote_reject {db : DB} {sid pid g : String} {cnt : Nat}
    (h : (participantTotal db.votes sid pid : Int)
      - (existingVoteCount db.votes pid g : Int) + (cnt : Int) > 4) :
    applyVote db sid pid g cnt = (db, VoteOutcome.err "Insufficient votes remaining") := by
  simp only [applyVote]
  rw [if_pos h]

theorem applyVote_accept {db : DB} {sid pid g : String} {cnt : Nat}
    (hq : ¬((participantTotal db.votes sid pid : Int)
      - (existingVoteCount db.votes pid g : Int) + (cnt : Int) > 4))
    (hg : db.groups.any (fun x => x.id == g) = true) :
    ∃ db' t, applyVote db sid pid g cnt = (db', VoteOutcome.ok g t) := by
  simp only [applyVote]
  rw [if_neg hq]
  split
  · unfold updateGroupCount
    rw [if_pos hg]
    exact ⟨_, _, rfl⟩
  · split
    · unfold updateGroupCount
      rw [if_pos hg]
      exact ⟨_, _, rfl⟩
    · unfold updateGroupCount
      rw [if_pos hg]
      exact ⟨_, _, rfl⟩

theorem castVote_of_resolve {db : DB} {sid : String} (pid : String)
    {vid : String} {cnt : Nat} {f : String} {dbr : DB} {g : String}
    (hcnt : cnt ≤ 4)
    (hres : resolveTarget db sid vid f = (dbr, ResolveOutcome.ok g)) :
    castVote db sid pid vid cnt f = applyVote dbr sid pid g cnt := by
  unfold castVote
  rw [if_neg (by omega : ¬cnt > 4), hres]

theorem applyVote_err_votes {db : DB} {sid pid g : String} {cnt : Nat}
    {db' : DB} {m : String}
    (hfk : votesFk db)
    (h : applyVote db sid pid g cnt = (db', VoteOutcome.err m)) :
    db'.votes = db.votes := by
  have hnomatch : (∀ x ∈ db.groups, ¬x.id = g) →
      ∀ v ∈ db.votes, (v.participantId == pid && v.groupId == g) = false := by
    intro hnog v hv
    rcases hfk v hv with ⟨gr, hgr, hgid⟩
    by_cases hvg : v.groupId = g
    · exact absurd (hgid.trans hvg) (hnog gr hgr)
    · simp [hvg]
  simp only [applyVote] at h
  split at h
  · injection h with h1 h2
    subst h1; rfl
  · split at h
    case isTrue hc0 =>
      unfold updateGroupCount at h
      split at h
      · exact absurd h (by simp)
      case isFalse hgany =>
        injection h with h1 h2
        subst h1
        show db.votes.filter _ = db.votes
        rw [List.filter_eq_self]
        intro v hv
        have hnog : ∀ x ∈ db.groups, ¬x.id = g := by
          intro x hx
          simpa using fun hxg => absurd (List.any_eq_true.mpr ⟨x, hx, by simp [hxg]⟩) hgany
        simp [hnomatch hnog v hv]
    case isFalse hc0 =>
      split at h
      case isTrue hany =>
        unfold updateGroupCount at h
        split at h
        · exact absurd h (by simp)
        case isFalse hgany =>
          rcases List.any_eq_true.mp hany with ⟨v, hv, hvm⟩
          have hnog : ∀ x ∈ db.groups, ¬x.id = g := by
            intro x hx
            simpa using fun hxg => absurd (List.any_eq_true.mpr ⟨x, hx, by simp [hxg]⟩) hgany
          rw [hnomatch hnog v hv] at hvm
          cases hvm
      case isFalse hany =>
        split at h
        case isTrue hgroups =>
          unfold updateGroupCount at h
          split at h
          · exact absurd h (by simp)
          case isFalse hgany =>
            exact absurd hgroups hgany
        case isFalse hgroups =>
          injection h with h1 h2
          subst h1; rfl

theorem castVote_err_votes {db : DB} {sid pid vid : String} {cnt : Nat}
    {f : String} {db' : DB} {m : String}
    (hfk : votesFk db)
    (h : castVote db sid pid vid cnt f = (db', VoteOutcome.err m)) :
    db'.votes = db.votes := by
  unfold castVote at h
  split at h
  · injection h with h1 h2
    subst h1; rfl
  · split at h
    case h_1 db1 msg heq =>
      injection h with h1 h2
      subst h1
      have hv := resolveTarget_votes db sid vid f
      rw [heq] at hv
      exact hv
    case h_2 db1 a heq =>
      have hv := resolveTarget_votes db sid vid f
      rw [heq] at hv
      have hfk1 : votesFk db1 := by
        intro v hvmem
        rw [show db1.votes = db.votes from hv] at hvmem
        rcases hfk v hvmem with ⟨gr, hgr, hgid⟩
        refine ⟨gr, ?_, hgid⟩
        have := resolveTarget_groups_mono db sid vid f hgr
        rw [heq] at this
        exact this
      rw [applyVote_err_votes hfk1 h]
      exact hv

theorem length_filter_append_single {A : Type} (p : A → Bool) (l : List A) (x : A) :
    (List.filter p (l ++ [x])).length ≤ (List.filter p l).length + 1 := by
  rw [List.filter_append, List.length_append]
  have hx : (List.filter p [x]).length ≤ 1 := by
    simp only [List.filter]
    split <;> simp
  omega

theorem filter_append_single_false {A : Type} (p : A → Bool) (l : List A) (x : A)
    (hx : p x = false) : List.filter p (l ++ [x]) = List.filter p l := by
  rw [List.filter_append]
  simp [List.filter, hx]

/-- C1: For every cast_vote(participant, target, count), with T the
participant's current total allocation across all groups in the session
and E the amount currently allocated to the resolved target: if
T - E + count > 4 the command is rejected with an error and no vote row
is written or changed (the post-resolution state keeps the pre-command
ledger); otherwise it is accepted. -/
theorem castVote_quota_check (db : DB) (sid pid vid : String) (cnt : Nat)
    (f : String) (dbr : DB) (g : String)
    (hcnt : cnt ≤ 4)
    (hres : resolveTarget db sid vid f = (dbr, ResolveOutcome.ok g))
    (hg : dbr.groups.any (fun x => x.id == g) = true) :
    ((participantTotal db.votes sid pid : Int)
        - (existingVoteCount db.votes pid g : Int) + (cnt : Int) > 4 →
      castVote db sid pid vid cnt f
        = (dbr, VoteOutcome.err "Insufficient votes remaining") ∧
      dbr.votes = db.votes) ∧
    (¬((participantTotal db.votes sid pid : Int)
        - (existingVoteCount db.votes pid g : Int) + (cnt : Int) > 4) →
      ∃ db' t, castVote db sid pid vid cnt f = (db', VoteOutcome.ok g t)) := by
  have hv : dbr.votes = db.votes := by
    have h0 := resolveTarget_votes db sid vid f
    rw [hres] at h0
    exact h0
  have hstep := castVote_of_resolve pid hcnt hres
  constructor
  · intro hover
    have hover' : (participantTotal dbr.votes sid pid : Int)
        - (existingVoteCount dbr.votes pid g : Int) + (cnt : Int) > 4 := by
      rw [hv]; exact hover
    exact ⟨by rw [hstep]; exact applyVote_reject hover', hv⟩
  · intro hq
    have hq' : ¬((participantTotal dbr.votes sid pid : Int)
        - (existingVoteCount dbr.votes pid g : Int) + (cnt : Int) > 4) := by
      rw [hv]; exact hq
    rcases applyVote_accept hq' hg with ⟨db', t, happ⟩
    exact ⟨db', t, by rw [hstep]; exact happ⟩

/-- Witness for C1, at the spec scenario: participant p1 holds 3 votes on
g1 and attempts 2 on g2; the command is rejected, the state is unchanged
and p1's allocation on g2 is still 0. -/
theorem castVote_quota_check_witness :
    castVote fxA "s1" "p1" "g2" 2 "gf"
      = (fxA, VoteOutcome.err "Insufficient votes remaining") ∧
    existingVoteCount fxA.votes "p1" "g2" = 0 :=
  ⟨((castVote_quota_check fxA "s1" "p1" "g2" 2 "gf" fxA "g2"
      (by decide) (by decide) (by decide)).1 (by decide)).1,
    by decide⟩

/-- C4 (code bug witness): for an authorized change_phase with neither
timerDuration nor stopTimer, the code persists a null timer end time
instead of preserving the session's prior end time (999000 here),
contradicting the handler's own comment that the existing timer is
kept. -/
theorem changePhase_timer_nulled_without_options :
    fxA.sessions.map (fun s => s.timerEndTime) = [some 999000] ∧
    (changePhase fxA "k1" "s1" "DISCUSS" none none 5000).2 = none ∧
    (changePhase fxA "k1" "s1" "DISCUSS" none none 5000).1.sessions.map
      (fun s => s.currentPhase) = ["DISCUSS"] ∧
    (changePhase fxA "k1" "s1" "DISCUSS" none none 5000).1.sessions.map
      (fun s => s.timerEndTime) = [none] := by decide

/-- C5: After every completed cast_vote, the broadcast total and the
persisted vote-count field of every group row carrying the resolved id
equal the sum of the Vote rows referencing that group in the resulting
state. -/
theorem castVote_group_total_recomputed {db : DB} {sid pid vid : String}
    {cnt : Nat} {f : String} {g : String} {t : Nat}
    (h : (castVote db sid pid vid cnt f).2 = VoteOutcome.ok g t) :
    t = groupTotal ((castVote db sid pid vid cnt f).1).votes g ∧
    ∀ grp ∈ ((castVote db sid pid vid cnt f).1).groups,
      grp.id = g → grp.voteCount = t := by
  rcases hpr : castVote db sid pid vid cnt f with ⟨db', o⟩
  rw [hpr] at h
  have ho : o = VoteOutcome.ok g t := h
  subst ho
  rcases castVote_ok_inv hpr with ⟨hcnt, dbr, hres, happ⟩
  rcases applyVote_ok_inv happ with ⟨-, -, -, -, -, -, ht, hall, -⟩
  exact ⟨ht, hall⟩

/-- Witness for C5: p1 casts 3 votes on the persisted group g1 of `fxB`;
the new total is 3 and it equals the recomputed sum of g1's vote rows in
the resulting state. -/
theorem castVote_group_total_recomputed_witness :
    (castVote fxB "s1" "p1" "g1" 3 "gf").2 = VoteOutcome.ok "g1" 3 ∧
    3 = groupTotal ((castVote fxB "s1" "p1" "g1" 3 "gf").1).votes "g1" ∧
    ∀ grp ∈ ((castVote fxB "s1" "p1" "g1" 3 "gf").1).groups,
      grp.id = "g1" → grp.voteCount = 3 := by
  have h : (castVote fxB "s1" "p1" "g1" 3 "gf").2 = VoteOutcome.ok "g1" 3 := by
    decide
  rcases castVote_group_total_recomputed h with ⟨h1, h2⟩
  exact ⟨h, h1, h2⟩

/-- C6: For every accepted cast_vote: count 0 deletes the ledger row for
(participant, resolved target), and a nonzero count upserts it so the
allocation becomes exactly count. -/
theorem castVote_upsert_exact {db : DB} {sid pid vid : String} {cnt : Nat}
    {f : String} {g : String} {t : Nat}
    (h : (castVote db sid pid vid cnt f).2 = VoteOutcome.ok g t) :
    (cnt = 0 → ((castVote db sid pid vid cnt f).1).votes.find?
        (fun v => v.participantId == pid && v.groupId == g) = none) ∧
    (cnt ≠ 0 →
      existingVoteCount ((castVote db sid pid vid cnt f).1).votes pid g = cnt) := by
  rcases hpr : castVote db sid pid vid cnt f with ⟨db', o⟩
  rw [hpr] at h
  have ho : o = VoteOutcome.ok g t := h
  subst ho
  rcases castVote_ok_inv hpr with ⟨hcnt, dbr, hres, happ⟩
  rcases applyVote_ok_inv happ with ⟨-, -, -, -, -, -, -, -, hvotes⟩
  dsimp only
  constructor
  · intro hc0
    rcases hvotes with ⟨-, hveq⟩ | ⟨hne, -, -⟩ | ⟨hne, -, -⟩
    · rw [hveq, List.find?_eq_none]
      intro v hv
      have hmem := (List.mem_filter.mp hv).2
      simp only [Bool.not_eq_true'] at hmem
      simp [hmem]
    · exact absurd hc0 hne
    · exact absurd hc0 hne
  · intro hne
    have hcompF : ((fun v : Vote => v.participantId == pid && v.groupId == g) ∘
        (fun v : Vote => if v.participantId == pid && v.groupId == g
          then { v with voteCount := cnt } else v)) =
        (fun v : Vote => v.participantId == pid && v.groupId == g) := by
      funext v
      by_cases hqv : (v.participantId == pid && v.groupId == g) = true
      · simp [Function.comp, hqv]
      · simp [Function.comp, hqv]
    rcases hvotes with ⟨hc0, -⟩ | ⟨-, hany, hveq⟩ | ⟨-, hany, hveq⟩
    · exact absurd hc0 hne
    · rw [hveq]
      unfold existingVoteCount
      rw [List.find?_map, hcompF]
      have hsome : (dbr.votes.find? (fun v =>
          v.participantId == pid && v.groupId == g)).isSome = true :=
        List.find?_isSome.mpr (List.any_eq_true.mp hany)
      rcases Option.isSome_iff_exists.mp hsome with ⟨v1, hfind⟩
      have hq1 := List.find?_some hfind
      rw [hfind]
      have hp : v1.participantId = pid ∧ v1.groupId = g := by simpa using hq1
      simp [hq1, hp.1, hp.2]
    · rw [hveq]
      unfold existingVoteCount
      rw [List.find?_append, List.find?_eq_none.mpr (fun x hx =>
        List.any_eq_false.mp hany x hx)]
      simp

/-- Witness for C6, at the spec scenario: p1 casts 3 votes on g1 and then
casts 2 on g1 again; the second call is accepted, the allocation becomes
exactly 2 (not 5) and the broadcast group total is 2. -/
theorem castVote_upsert_exact_witness :
    (castVote ((castVote fxB "s1" "p1" "g1" 3 "f1").1) "s1" "p1" "g1" 2 "f2").2
      = VoteOutcome.ok "g1" 2 ∧
    existingVoteCount
      ((castVote ((castVote fxB "s1" "p1" "g1" 3 "f1").1) "s1" "p1" "g1" 2 "f2").1).votes
      "p1" "g1" = 2 := by
  have h : (castVote ((castVote fxB "s1" "p1" "g1" 3 "f1").1) "s1" "p1" "g1" 2 "f2").2
      = VoteOutcome.ok "g1" 2 := by decide
  exact ⟨h, (castVote_upsert_exact h).2 (by decide)⟩

/-- C7: Every change_phase request whose connection is not currently
bound to the session's host participant (nonexistent sessions included)
is rejected with an error and leaves the store unchanged. -/
theorem changePhase_nonhost_rejected (db : DB) (sock sid ph : String)
    (dur : Option Nat) (stop : Option Bool) (now : Nat)
    (hnh : ∀ p ∈ db.participants, p.sessionId = sid → p.isHost = true →
      ¬p.socketId = some sock) :
    changePhase db sock sid ph dur stop now
      = (db, some "Unauthorized to change phase") := by
  simp only [changePhase]
  split
  · rfl
  · rcases hl : db.participants.filter (fun p =>
        p.sessionId == sid && p.socketId == some sock) with - | ⟨x, xs⟩
    · rw [hl]
      simp
    · rw [hl]
      have hxf : x ∈ db.participants.filter (fun p =>
          p.sessionId == sid && p.socketId == some sock) := by
        rw [hl]; exact List.mem_cons_self x xs
      have hx := List.mem_filter.mp hxf
      have hc : x.sessionId = sid ∧ x.socketId = some sock := by
        simpa using hx.2
      have hnot : x.isHost = false := by
        cases hxh : x.isHost
        · rfl
        · exact absurd hc.2 (hnh x hx.1 hc.1 hxh)
      simp [hnot]

/-- Witness for C7: the non-host participant p2 (socket k2) attempts a
phase change on fxA; it is rejected and the store is unchanged. -/
theorem changePhase_nonhost_rejected_witness :
    changePhase fxA "k2" "s1" "DISCUSS" none none 5000
      = (fxA, some "Unauthorized to change phase") :=
  changePhase_nonhost_rejected fxA "k2" "s1" "DISCUSS" none none 5000 (by decide)

/-- C3 counterexample: a cast_vote on the virtual target individual-r1 by
a participant with only 1 vote remaining is rejected by the quota check,
yet the state after the command differs from the state before it: the
materialized group g9 was committed and r1 was assigned to it.  This
refutes the claim that no partial state is committed for a rejected
operation. -/
theorem castVote_reject_commits_materialization :
    (castVote fxA "s1" "p1" "individual-r1" 2 "g9").2
      = VoteOutcome.err "Insufficient votes remaining" ∧
    ¬((castVote fxA "s1" "p1" "individual-r1" 2 "g9").1 = fxA) ∧
    ((castVote fxA "s1" "p1" "individual-r1" 2 "g9").1).groups.length
      = fxA.groups.length + 1 ∧
    ((castVote fxA "s1" "p1" "individual-r1" 2 "g9").1).responses.map
      (fun r => r.groupId) = [some "g9"] := by decide

/-- C3 (amended): Rejected change_phase, create_connection and join
commands leave the store exactly as it was, and a rejected cast_vote
writes or changes no vote row; however, the materialization performed
while resolving a cast_vote target (the created group and the
response-to-group assignments) stays committed even when the vote is
subsequently rejected. -/
theorem rejected_commands_partial_state :
    (∀ (db : DB) (sock sid ph : String) (dur : Option Nat) (stop : Option Bool)
        (now : Nat) (db' : DB) (m : String),
      changePhase db sock sid ph dur stop now = (db', some m) → db' = db) ∧
    (∀ (db : DB) (sid a b f : String) (db' : DB) (m : String),
      createConnection db sid a b f = (db', some m) → db' = db) ∧
    (∀ (db : DB) (code name av fp : String) (db' : DB) (m : String),
      joinSession db code name av fp = (db', JoinOutcome.err m) → db' = db) ∧
    (∀ (db : DB) (sid pid vid : String) (cnt : Nat) (f : String) (db' : DB)
        (m : String), votesFk db →
      castVote db sid pid vid cnt f = (db', VoteOutcome.err m) →
      db'.votes = db.votes) := by
  refine ⟨?_, ?_, ?_, ?_⟩
  · intro db sock sid ph dur stop now db' m h
    simp only [changePhase] at h
    split at h
    · injection h with h1 h2
      exact h1.symm
    · split at h
      · injection h with h1 h2
        exact h1.symm
      · exact absurd h (by simp)
  · intro db sid a b f db' m h
    simp only [createConnection] at h
    split at h
    · injection h with h1 h2
      exact h1.symm
    · split at h
      · injection h with h1 h2
        exact h1.symm
      · exact absurd h (by simp)
  · intro db code name av fp db' m h
    simp only [joinSession] at h
    split at h
    · injection h with h1 h2
      exact h1.symm
    · split at h
      · injection h with h1 h2
        exact h1.symm
      · split at h
        · injection h with h1 h2
          exact h1.symm
        · split at h
          · injection h with h1 h2
            exact h1.symm
          · exact absurd h (by simp)
  · intro db sid pid vid cnt f db' m hfk h
    exact castVote_err_votes hfk h

/-- Witness for the amended C3: a non-host phase change, a
self-loop connection request, a duplicate-name join and the
quota-rejected materializing cast_vote of the counterexample all leave
the respective protected state untouched. -/
theorem rejected_commands_partial_state_witness :
    (changePhase fxA "k2" "s1" "DISCUSS" none none 5000).1 = fxA ∧
    (createConnection fxA "s1" "r1" "r1" "c1").1 = fxA ∧
    (joinSession fxA "ABCD1234" "alice" "a9" "p9").1 = fxA ∧
    ((castVote fxA "s1" "p1" "individual-r1" 2 "g9").1).votes = fxA.votes := by
  refine ⟨?_, ?_, ?_, ?_⟩
  · exact rejected_commands_partial_state.1 fxA "k2" "s1" "DISCUSS" none none 5000
      (changePhase fxA "k2" "s1" "DISCUSS" none none 5000).1
      "Unauthorized to change phase" (by decide)
  · exact rejected_commands_partial_state.2.1 fxA "s1" "r1" "r1" "c1"
      (createConnection fxA "s1" "r1" "r1" "c1").1
      "Invalid responses for connection" (by decide)
  · exact rejected_commands_partial_state.2.2.1 fxA "ABCD1234" "alice" "a9" "p9"
      (joinSession fxA "ABCD1234" "alice" "a9" "p9").1
      "Display name already taken" (by decide)
  · exact rejected_commands_partial_state.2.2.2 fxA "s1" "p1" "individual-r1" 2 "g9"
      (castVote fxA "s1" "p1" "individual-r1" 2 "g9").1
      "Insufficient votes remaining" (by unfold votesFk; decide) (by decide)

/-- C10: A join request with a valid payload against a session that
already holds 15 (or more) participants is rejected with 'Session is
full' and no participant is created; and a completed join never raises
any session's participant count above 15. -/
theorem joinSession_capacity (db : DB) (code name av fp : String) :
    (∀ s, (strLen code != 8 || strLen name == 0 || strLen name > 50
        || strLen av == 0 || strLen av > 20) = false →
      db.sessions.find? (fun x => x.inviteCode == code) = some s →
      15 ≤ (db.participants.filter (fun p => p.sessionId == s.id)).length →
      joinSession db code name av fp = (db, JoinOutcome.err "Session is full")) ∧
    (∀ sid, (db.participants.filter (fun p => p.sessionId == sid)).length ≤ 15 →
      (((joinSession db code name av fp).1).participants.filter
        (fun p => p.sessionId == sid)).length ≤ 15) := by
  constructor
  · intro s hvalid hfind hcap
    simp only [joinSession]
    rw [if_neg (by simp [hvalid]), hfind]
    dsimp only
    rw [if_pos hcap]
  · intro sid hsid
    simp only [joinSession]
    split
    · exact hsid
    · split
      · exact hsid
      case h_2 s hfind =>
        split
        · exact hsid
        case isFalse hcap =>
          split
          · exact hsid
          · dsimp only
            by_cases hseq : s.id = sid
            · refine le_trans (length_filter_append_single _ _ _) ?_
              subst hseq
              have hlt := Nat.lt_of_not_le hcap
              omega
            · have hfx : ((⟨fp, s.id, name, av, false, none⟩ : Participant).sessionId
                  == sid) = false := beq_eq_false_iff_ne.mpr hseq
              rw [filter_append_single_false (fun p => p.sessionId == sid)
                db.participants (⟨fp, s.id, name, av, false, none⟩ : Participant) hfx]
              exact hsid

/-- Witness for C10: joining the 15-participant session of `fxFull` is
rejected as full with no state change, while a successful join on the
2-participant session of `fxA` keeps the count within 15. -/
theorem joinSession_capacity_witness :
    joinSession fxFull "FULLCODE" "Newbie" "av" "p9"
      = (fxFull, JoinOutcome.err "Session is full") ∧
    (((joinSession fxA "ABCD1234" "Carol" "a3" "p3").1).participants.filter
      (fun p => p.sessionId == "s1")).length ≤ 15 := by
  constructor
  · exact (joinSession_capacity fxFull "FULLCODE" "Newbie" "av" "p9").1
      { id := "s2", inviteCode := "FULLCODE", currentPhase := "BRAINSTORM",
        timerDuration := none, timerEndTime := none }
      (by decide) (by decide) (by decide)
  · exact (joinSession_capacity fxA "ABCD1234" "Carol" "a3" "p3").2 "s1" (by decide)

theorem strLen_strTake (s : String) (n : Nat) : strLen (strTake s n) ≤ n := by
  simp only [strLen, strTake, List.length_take]
  exact Nat.min_le_left n s.data.length

theorem strLen_append (a b : String) : strLen (a ++ b) = strLen a + strLen b := by
  cases a with
  | mk la =>
    cases b with
    | mk lb =>
      show (la ++ lb).length = la.length + lb.length
      exact List.length_append la lb

theorem strLen_trunc_le (s : String) (n : Nat) :
    strLen (if strLen s > n then strTake s n ++ "..." else s) ≤ n + 3 := by
  split
  · rw [strLen_append]
    have h1 := strLen_strTake s n
    have h2 : strLen "..." = 3 := by decide
    omega
  · omega

/-- C8 counterexample: materializing the single ungrouped 40-character
response r1 via an individual- target creates a group whose label has
length 33, refuting the claim that the single-response label is at most
30 characters. -/
theorem materialized_label_exceeds_bound :
    (resolveTarget fxA "s1" "individual-r1" "g9").2 = ResolveOutcome.ok "g9" ∧
    (((resolveTarget fxA "s1" "individual-r1" "g9").1).groups.filter
      (fun g => g.id == "g9")).map (fun g => strLen g.label) = [33] ∧
    ¬(33 ≤ 30) := by decide

/-- C8 (amended): a materialization that creates a new group derives its
label from the truncated concatenation of the referenced responses'
contents — at most 83 characters (80 plus a 3-character ellipsis) in the
multi-response case and at most 33 (30 plus ellipsis) in the
single-response case — takes its color from the first response's
category, its position from the first response's position, and assigns
every referenced, currently-ungrouped response of the session to the new
group. -/
theorem materialization_group_fields :
    (∀ (db : DB) (sid vid rid f : String) (r : Response),
      strStarts vid "connected-" = false →
      strStarts vid "individual-" = true →
      strDrop vid 11 = rid →
      db.groups.find? (fun g => g.sessionId == sid &&
        db.responses.any (fun x => x.id == rid && x.groupId == some g.id)) = none →
      db.responses.find? (fun x => x.id == rid) = some r →
      resolveTarget db sid vid f =
        ({ db with
            groups := db.groups ++
              [⟨f, sid,
                (if strLen r.content > 30 then strTake r.content 30 ++ "..." else r.content),
                (if r.category == Category.WENT_WELL then "#10b981" else "#ef4444"),
                r.positionX, r.positionY, 0⟩]
            responses := db.responses.map (fun x =>
              if x.id == rid then { x with groupId := some f } else x) },
          ResolveOutcome.ok f) ∧
      strLen (if strLen r.content > 30
        then strTake r.content 30 ++ "..." else r.content) ≤ 33) ∧
    (∀ (db : DB) (sid vid f : String) (rids : List String) (r0 : Response)
        (rest : List Response),
      strStarts vid "connected-" = true →
      strSplit (strDrop vid 10) "--" = rids →
      (rids.length == 0 || rids.any (fun i => !(isUuidFormat i))) = false →
      db.responses.filter (fun x => rids.contains x.id && x.sessionId == sid
        && x.groupId.isSome) = [] →
      db.responses.filter (fun x => rids.contains x.id && x.sessionId == sid
        && x.groupId.isNone) = r0 :: rest →
      resolveTarget db sid vid f =
        ({ db with
            groups := db.groups ++
              [⟨f, sid,
                (if strLen (" • ".intercalate ((r0 :: rest).map (fun x =>
                    if strLen x.content > 20 then strTake x.content 20 ++ "..."
                    else x.content))) > 80
                  then strTake (" • ".intercalate ((r0 :: rest).map (fun x =>
                    if strLen x.content > 20 then strTake x.content 20 ++ "..."
                    else x.content))) 80 ++ "..."
                  else " • ".intercalate ((r0 :: rest).map (fun x =>
                    if strLen x.content > 20 then strTake x.content 20 ++ "..."
                    else x.content))),
                (if r0.category == Category.WENT_WELL then "#10b981" else "#ef4444"),
                r0.positionX, r0.positionY, 0⟩]
            responses := db.responses.map (fun x =>
              if rids.contains x.id then { x with groupId := some f } else x) },
          ResolveOutcome.ok f) ∧
      strLen (if strLen (" • ".intercalate ((r0 :: rest).map (fun x =>
          if strLen x.content > 20 then strTake x.content 20 ++ "..."
          else x.content))) > 80
        then strTake (" • ".intercalate ((r0 :: rest).map (fun x =>
          if strLen x.content > 20 then strTake x.content 20 ++ "..."
          else x.content))) 80 ++ "..."
        else " • ".intercalate ((r0 :: rest).map (fun x =>
          if strLen x.content > 20 then strTake x.content 20 ++ "..."
          else x.content))) ≤ 83) := by
  constructor
  · intro db sid vid rid f r hc hi hrid hnog hfindr
    constructor
    · simp only [resolveTarget]
      rw [if_neg (by simp [hc]), if_pos hi, hrid, hnog, hfindr]
    · exact strLen_trunc_le r.content 30
  · intro db sid vid f rids r0 rest hc hsplit hguard hnogrp hungrp
    constructor
    · simp only [resolveTarget]
      rw [if_pos hc, hsplit, if_neg (by simp [hguard]), hnogrp, hungrp]
    · exact strLen_trunc_le _ 80

/-- Witness for the amended C8: materializing individual-r1 on `fxA`
yields a 33-character label, the color keyed to r1's WENT_WELL category
and r1's position, with r1 assigned; materializing the connected chain of
`fxB` yields the truncated joined label within 83 characters. -/
theorem materialization_group_fields_witness :
    resolveTarget fxA "s1" "individual-r1" "g9" =
      ({ fxA with
          groups := fxA.groups ++
            [⟨"g9", "s1", strTake "aaaaaaaaaaaaaaaaaaaaaaaaaaaaaaaaaaaaaaaa" 30 ++ "...",
              "#10b981", 7, 8, 0⟩]
          responses := fxA.responses.map (fun x =>
            if x.id == "r1" then { x with groupId := some "g9" } else x) },
        ResolveOutcome.ok "g9") ∧
    (((resolveTarget fxB "s1" fxBChain "g9").1).groups.filter
      (fun g => g.id == "g9")).map (fun g => strLen g.label) = [49] ∧
    (49 : Nat) ≤ 83 := by
  refine ⟨?_, by decide, by decide⟩
  have h := (materialization_group_fields.1 fxA "s1" "individual-r1" "r1" "g9"
    (fxA.responses.get ⟨0, by decide⟩)
    (by decide) (by decide) (by decide) (by decide) (by decide)).1
  rw [h]
  decide

theorem length_le_one_of_const {α : Type} {l : List α} {v : α}
    (hnd : l.Nodup) (hall : ∀ x ∈ l, x = v) : l.length ≤ 1 := by
  cases l with
  | nil => simp
  | cons x xs =>
    cases xs with
    | nil => simp
    | cons y ys =>
      exfalso
      have hx : x = v := hall x (by simp)
      have hy : y = v := hall y (by simp)
      have hxy : x = y := hx.trans hy.symm
      exact (List.nodup_cons.mp hnd).1 (by rw [hxy]; exact List.mem_cons_self y ys)

theorem length_filter_pair {α : Type} [DecidableEq α] :
    ∀ (l : List α) (ra rb : α), l.Nodup → ra ∈ l → rb ∈ l → ra ≠ rb →
      (l.filter (fun x => x == ra || x == rb)).length = 2 := by
  intro l
  induction l with
  | nil =>
    intro ra rb _ ha _ _
    cases ha
  | cons x xs ih =>
    intro ra rb hnd ha hb hne
    rcases List.nodup_cons.mp hnd with ⟨hxnot, hndxs⟩
    by_cases hxa : x = ra
    · have hbxs : rb ∈ xs := by
        rcases List.mem_cons.mp hb with h | h
        · exact absurd ((h.trans hxa).symm) hne
        · exact h
      rw [List.filter_cons_of_pos (by simp [hxa])]
      have hcong : xs.filter (fun y => y == ra || y == rb)
          = xs.filter (fun y => y == rb) := by
        apply List.filter_congr
        intro y hy
        have hyra : (y == ra) = false := by
          refine beq_eq_false_iff_ne.mpr (fun he => hxnot ?_)
          have hxy : x = y := hxa.trans he.symm
          rw [hxy]; exact hy
        simp [hyra]
      rw [List.length_cons, hcong]
      have hone : (xs.filter (fun y => y == rb)).length = 1 := by
        rw [← List.countP_eq_length_filter]
        have hc := List.count_eq_one_of_mem hndxs hbxs
        simpa [List.count] using hc
      omega
    · by_cases hxb : x = rb
      · have haxs : ra ∈ xs := by
          rcases List.mem_cons.mp ha with h | h
          · exact absurd (h.trans hxb) hne
          · exact h
        rw [List.filter_cons_of_pos (by simp [hxb])]
        have hcong : xs.filter (fun y => y == ra || y == rb)
            = xs.filter (fun y => y == ra) := by
          apply List.filter_congr
          intro y hy
          have hyrb : (y == rb) = false := by
            refine beq_eq_false_iff_ne.mpr (fun he => hxnot ?_)
            have hxy : x = y := hxb.trans he.symm
            rw [hxy]; exact hy
          simp [hyrb]
        rw [List.length_cons, hcong]
        have hone : (xs.filter (fun y => y == ra)).length = 1 := by
          rw [← List.countP_eq_length_filter]
          have hc := List.count_eq_one_of_mem hndxs haxs
          simpa [List.count] using hc
        omega
      · have haxs : ra ∈ xs := by
          rcases List.mem_cons.mp ha with h | h
          · exact absurd h.symm hxa
          · exact h
        have hbxs : rb ∈ xs := by
          rcases List.mem_cons.mp hb with h | h
          · exact absurd h.symm hxb
          · exact h
        rw [List.filter_cons_of_neg (by simp [hxa, hxb])]
        exact ih ra rb hndxs haxs hbxs hne

/-- C9: create_connection is symmetric in its endpoint pair: a request is
rejected when an edge between the two responses already exists in either
declaration order; it is rejected (with no state change) when either
endpoint response does not belong to the stated session; otherwise — the
pair consisting of two distinct responses of the session and no such edge
existing — the connection is persisted; and the at-most-one-edge-per-
unordered-pair invariant is preserved by every call. -/
theorem createConnection_unordered_pair (db : DB) (sid a b f : String)
    (hwf : respIdsNodup db) :
    ((∃ c ∈ db.connections, c.sessionId = sid ∧
        ((c.fromResponseId = a ∧ c.toResponseId = b) ∨
         (c.fromResponseId = b ∧ c.toResponseId = a))) →
      createConnection db sid a b f = (db, some "Connection already exists") ∧
      createConnection db sid b a f = (db, some "Connection already exists")) ∧
    (((¬∃ r ∈ db.responses, r.id = a ∧ r.sessionId = sid) ∨
      (¬∃ r ∈ db.responses, r.id = b ∧ r.sessionId = sid)) →
      (createConnection db sid a b f).1 = db ∧
      (createConnection db sid a b f).2 ≠ none) ∧
    ((¬∃ c ∈ db.connections, c.sessionId = sid ∧
        ((c.fromResponseId = a ∧ c.toResponseId = b) ∨
         (c.fromResponseId = b ∧ c.toResponseId = a))) →
      (∃ ra ∈ db.responses, ra.id = a ∧ ra.sessionId = sid) →
      (∃ rb ∈ db.responses, rb.id = b ∧ rb.sessionId = sid) →
      a ≠ b →
      createConnection db sid a b f =
        ({ db with connections := db.connections ++ [⟨f, sid, a, b⟩] }, none)) ∧
    (edgeUnique db → edgeUnique (createConnection db sid a b f).1) := by
  have hmatch : ∀ (x y : String) (c : Connection), c ∈ db.connections →
      c.sessionId = sid →
      ((c.fromResponseId = x ∧ c.toResponseId = y) ∨
       (c.fromResponseId = y ∧ c.toResponseId = x)) →
      (fun c : Connection => c.sessionId == sid &&
        ((c.fromResponseId == x && c.toResponseId == y) ||
         (c.fromResponseId == y && c.toResponseId == x))) c = true := by
    intro x y c _ hcs hor
    rcases hor with ⟨h1, h2⟩ | ⟨h1, h2⟩ <;> simp [hcs, h1, h2]
  refine ⟨?_, ?_, ?_, ?_⟩
  · intro hex
    rcases hex with ⟨c, hcmem, hcs, hor⟩
    constructor
    · unfold createConnection
      cases hf : db.connections.find? (fun c => c.sessionId == sid &&
          ((c.fromResponseId == a && c.toResponseId == b) ||
           (c.fromResponseId == b && c.toResponseId == a))) with
      | some c' => rfl
      | none =>
        exact absurd (hmatch a b c hcmem hcs hor) (List.find?_eq_none.mp hf c hcmem)
    · unfold createConnection
      cases hf : db.connections.find? (fun c => c.sessionId == sid &&
          ((c.fromResponseId == b && c.toResponseId == a) ||
           (c.fromResponseId == a && c.toResponseId == b))) with
      | some c' => rfl
      | none =>
        exact absurd (hmatch b a c hcmem hcs hor.symm)
          (List.find?_eq_none.mp hf c hcmem)
  · intro hmiss
    unfold createConnection
    cases hf : db.connections.find? (fun c => c.sessionId == sid &&
        ((c.fromResponseId == a && c.toResponseId == b) ||
         (c.fromResponseId == b && c.toResponseId == a))) with
    | some c' =>
      exact ⟨rfl, fun h => Option.noConfusion h⟩
    | none =>
      dsimp only
      have hnd1 : ((db.responses.filter (fun r =>
          (r.id == a || r.id == b) && r.sessionId == sid)).map
          (fun r => r.id)).Nodup :=
        List.Nodup.sublist ((List.filter_sublist db.responses).map (fun r => r.id)) hwf
      have hle : (db.responses.filter (fun r =>
          (r.id == a || r.id == b) && r.sessionId == sid)).length ≤ 1 := by
        rcases hmiss with hm | hm
        · have hall : ∀ y ∈ (db.responses.filter (fun r =>
              (r.id == a || r.id == b) && r.sessionId == sid)).map (fun r => r.id),
              y = b := by
            intro y hy
            rcases List.mem_map.mp hy with ⟨r, hrmem, hry⟩
            rcases List.mem_filter.mp hrmem with ⟨hrin, hrp⟩
            have hrp' : (r.id = a ∨ r.id = b) ∧ r.sessionId = sid := by
              simpa using hrp
            rcases hrp'.1 with h | h
            · exact absurd ⟨r, hrin, h, hrp'.2⟩ hm
            · exact hry.symm.trans h
          have := length_le_one_of_const hnd1 hall
          simpa using this
        · have hall : ∀ y ∈ (db.responses.filter (fun r =>
              (r.id == a || r.id == b) && r.sessionId == sid)).map (fun r => r.id),
              y = a := by
            intro y hy
            rcases List.mem_map.mp hy with ⟨r, hrmem, hry⟩
            rcases List.mem_filter.mp hrmem with ⟨hrin, hrp⟩
            have hrp' : (r.id = a ∨ r.id = b) ∧ r.sessionId = sid := by
              simpa using hrp
            rcases hrp'.1 with h | h
            · exact hry.symm.trans h
            · exact absurd ⟨r, hrin, h, hrp'.2⟩ hm
          have := length_le_one_of_const hnd1 hall
          simpa using this
      rw [if_pos (by simp only [bne_iff_ne]; omega)]
      exact ⟨rfl, fun h => Option.noConfusion h⟩
  · intro hnoedge hra hrb hne
    rcases hra with ⟨ra, hram, hraid, hras⟩
    rcases hrb with ⟨rb, hrbm, hrbid, hrbs⟩
    unfold createConnection
    cases hf : db.connections.find? (fun c => c.sessionId == sid &&
        ((c.fromResponseId == a && c.toResponseId == b) ||
         (c.fromResponseId == b && c.toResponseId == a))) with
    | some c' =>
      exfalso
      have hp := List.find?_some hf
      have hmem := List.mem_of_find?_eq_some hf
      have hp' : c'.sessionId = sid ∧
          ((c'.fromResponseId = a ∧ c'.toResponseId = b) ∨
           (c'.fromResponseId = b ∧ c'.toResponseId = a)) := by
        simpa using hp
      exact hnoedge ⟨c', hmem, hp'⟩
    | none =>
      dsimp only
      have hnd : db.responses.Nodup := List.Nodup.of_map _ hwf
      have hrane : ra ≠ rb := fun he => hne (by rw [← hraid, ← hrbid, he])
      have hchar : ∀ x ∈ db.responses,
          ((x.id == a || x.id == b) && x.sessionId == sid)
            = (x == ra || x == rb) := by
        intro x hx
        rw [Bool.eq_iff_iff]
        constructor
        · intro hpx
          have hpx' : (x.id = a ∨ x.id = b) ∧ x.sessionId = sid := by simpa using hpx
          rcases hpx'.1 with h | h
          · have hwfm : (db.responses.map (fun r => r.id)).Nodup := hwf
            have : x = ra := nodup_key_inj (fun r => r.id) hwfm hx hram
              (h.trans hraid.symm)
            simp [this]
          · have hwfm : (db.responses.map (fun r => r.id)).Nodup := hwf
            have : x = rb := nodup_key_inj (fun r => r.id) hwfm hx hrbm
              (h.trans hrbid.symm)
            simp [this]
        · intro hpx
          have hpx' : x = ra ∨ x = rb := by simpa using hpx
          rcases hpx' with h | h <;> subst h
          · simp [hraid, hras]
          · simp [hrbid, hrbs]
      have hlen : (db.responses.filter (fun r =>
          (r.id == a || r.id == b) && r.sessionId == sid)).length = 2 := by
        rw [List.filter_congr hchar]
        exact length_filter_pair db.responses ra rb hnd hram hrbm hrane
      rw [if_neg (by simp [bne_iff_ne, hlen])]
  · intro huniq
    unfold createConnection
    cases hf : db.connections.find? (fun c => c.sessionId == sid &&
        ((c.fromResponseId == a && c.toResponseId == b) ||
         (c.fromResponseId == b && c.toResponseId == a))) with
    | some c' =>
      exact huniq
    | none =>
      dsimp only
      split
      · exact huniq
      · intro c1 hc1 c2 hc2 hsess hpair
        have hnomatch : ∀ c ∈ db.connections, ¬(c.sessionId = sid ∧
            ((c.fromResponseId = a ∧ c.toResponseId = b) ∨
             (c.fromResponseId = b ∧ c.toResponseId = a))) := by
          intro c hc hcp
          exact absurd (hmatch a b c hc hcp.1 hcp.2) (by
            have := List.find?_eq_none.mp hf c hc
            simpa using this)
        rcases List.mem_append.mp hc1 with hc1m | hc1m
        · rcases List.mem_append.mp hc2 with hc2m | hc2m
          · exact huniq c1 hc1m c2 hc2m hsess hpair
          · exfalso
            have hc2e : c2 = ⟨f, sid, a, b⟩ := by simpa using hc2m
            subst hc2e
            exact hnomatch c1 hc1m ⟨hsess, by
              rcases hpair with ⟨h1, h2⟩ | ⟨h1, h2⟩
              · exact Or.inl ⟨h1, h2⟩
              · exact Or.inr ⟨h1, h2⟩⟩
        · have hc1e : c1 = ⟨f, sid, a, b⟩ := by simpa using hc1m
          rcases List.mem_append.mp hc2 with hc2m | hc2m
          · exfalso
            subst hc1e
            exact hnomatch c2 hc2m ⟨hsess.symm, by
              rcases hpair with ⟨h1, h2⟩ | ⟨h1, h2⟩
              · exact Or.inl ⟨h1.symm, h2.symm⟩
              · exact Or.inr ⟨h2.symm, h1.symm⟩⟩
          · have hc2e : c2 = ⟨f, sid, a, b⟩ := by simpa using hc2m
            rw [hc1e, hc2e]

/-- Witness for C9 on `fxB`'s two UUID responses: the first
create_connection persists the edge; re-requesting it in the opposite
declaration order is rejected as existing; a request with a missing
endpoint is rejected without a state change; and edge uniqueness holds
after the successful call. -/
theorem createConnection_unordered_pair_witness :
    createConnection fxB "s1" "aaaaaaaa-aaaa-aaaa-aaaa-aaaaaaaaaaaa"
        "bbbbbbbb-bbbb-bbbb-bbbb-bbbbbbbbbbbb" "c1" =
      ({ fxB with connections := fxB.connections ++
          [⟨"c1", "s1", "aaaaaaaa-aaaa-aaaa-aaaa-aaaaaaaaaaaa",
            "bbbbbbbb-bbbb-bbbb-bbbb-bbbbbbbbbbbb"⟩] }, none) ∧
    createConnection
        (createConnection fxB "s1" "aaaaaaaa-aaaa-aaaa-aaaa-aaaaaaaaaaaa"
          "bbbbbbbb-bbbb-bbbb-bbbb-bbbbbbbbbbbb" "c1").1
        "s1" "bbbbbbbb-bbbb-bbbb-bbbb-bbbbbbbbbbbb"
        "aaaaaaaa-aaaa-aaaa-aaaa-aaaaaaaaaaaa" "c2" =
      ((createConnection fxB "s1" "aaaaaaaa-aaaa-aaaa-aaaa-aaaaaaaaaaaa"
        "bbbbbbbb-bbbb-bbbb-bbbb-bbbbbbbbbbbb" "c1").1,
        some "Connection already exists") ∧
    (createConnection fxB "s1" "aaaaaaaa-aaaa-aaaa-aaaa-aaaaaaaaaaaa"
        "missing" "c3").1 = fxB ∧
    edgeUnique (createConnection fxB "s1" "aaaaaaaa-aaaa-aaaa-aaaa-aaaaaaaaaaaa"
        "bbbbbbbb-bbbb-bbbb-bbbb-bbbbbbbbbbbb" "c1").1 := by
  refine ⟨?_, ?_, ?_, ?_⟩
  · exact (createConnection_unordered_pair fxB "s1"
      "aaaaaaaa-aaaa-aaaa-aaaa-aaaaaaaaaaaa" "bbbbbbbb-bbbb-bbbb-bbbb-bbbbbbbbbbbb"
      "c1" (by unfold respIdsNodup; decide)).2.2.1 (by decide) (by decide)
      (by decide) (by decide)
  · exact ((createConnection_unordered_pair
      (createConnection fxB "s1" "aaaaaaaa-aaaa-aaaa-aaaa-aaaaaaaaaaaa"
        "bbbbbbbb-bbbb-bbbb-bbbb-bbbbbbbbbbbb" "c1").1
      "s1" "bbbbbbbb-bbbb-bbbb-bbbb-bbbbbbbbbbbb"
      "aaaaaaaa-aaaa-aaaa-aaaa-aaaaaaaaaaaa" "c2"
      (by unfold respIdsNodup; decide)).1 (by decide)).1
  · exact ((createConnection_unordered_pair fxB "s1"
      "aaaaaaaa-aaaa-aaaa-aaaa-aaaaaaaaaaaa" "missing" "c3"
      (by unfold respIdsNodup; decide)).2.1 (by decide)).1
  · exact (createConnection_unordered_pair fxB "s1"
      "aaaaaaaa-aaaa-aaaa-aaaa-aaaaaaaaaaaa" "bbbbbbbb-bbbb-bbbb-bbbb-bbbbbbbbbbbb"
      "c1" (by unfold respIdsNodup; decide)).2.2.2
      (by unfold edgeUnique; decide)

theorem resolveIndividual_again {db dbr : DB} {sid vid f1 g1 : String}
    (hc : strStarts vid "connected-" = false)
    (hi : strStarts vid "individual-" = true)
    (hwfR : (db.responses.map (fun r => r.id)).Nodup)
    (hfresh : ∀ g ∈ db.groups, g.id ≠ f1)
    (hres : resolveTarget db sid vid f1 = (dbr, ResolveOutcome.ok g1)) :
    ∀ (db1 : DB) (total : Nat),
      db1.responses = dbr.responses →
      db1.groups = dbr.groups.map (fun x =>
        if x.id == g1 then { x with voteCount := total } else x) →
      ∀ f2, resolveTarget db1 sid vid f2 = (db1, ResolveOutcome.ok g1) := by
  intro db1 total hresp hgroups f2
  simp only [resolveTarget] at hres ⊢
  rw [if_neg (by simp [hc]), if_pos hi] at hres ⊢
  have hupdid : ∀ (gid : String) (x : Group),
      ((if x.id == gid then { x with voteCount := total } else x) : Group).id
        = x.id := by
    intro gid x
    by_cases hx : (x.id == gid) = true
    · rw [if_pos hx]
    · rw [if_neg hx]
  cases hfind : db.groups.find? (fun g => g.sessionId == sid &&
      db.responses.any (fun r => r.id == strDrop vid 11 && r.groupId == some g.id)) with
  | some g =>
    rw [hfind] at hres
    dsimp only at hres
    injection hres with hA hB
    injection hB with hC
    subst hA
    rw [hresp, hgroups]
    have hcomp : ((fun g : Group => g.sessionId == sid &&
        db.responses.any (fun r => r.id == strDrop vid 11 && r.groupId == some g.id)) ∘
        (fun x : Group => if x.id == g1 then { x with voteCount := total } else x)) =
        (fun g : Group => g.sessionId == sid &&
          db.responses.any (fun r => r.id == strDrop vid 11 && r.groupId == some g.id)) := by
      funext x
      by_cases hx : (x.id == g1) = true
      · simp only [Function.comp]
        rw [if_pos hx]
      · simp only [Function.comp]
        rw [if_neg hx]
    rw [List.find?_map, hcomp, hfind]
    dsimp only [Option.map_some']
    rw [hupdid g1 g, hC]
  | none =>
    rw [hfind] at hres
    dsimp only at hres
    cases hfr : db.responses.find? (fun r => r.id == strDrop vid 11) with
    | none =>
      rw [hfr] at hres
      exact absurd hres (by simp)
    | some resp =>
      rw [hfr] at hres
      dsimp only at hres
      rw [Prod.mk.injEq] at hres
      obtain ⟨hA, hB⟩ := hres
      rw [ResolveOutcome.ok.injEq] at hB
      have hrespid : resp.id = strDrop vid 11 := by
        simpa using List.find?_some hfr
      have hrespmem : resp ∈ db.responses := List.mem_of_find?_eq_some hfr
      rw [← hB] at hgroups ⊢
      rw [← hA] at hresp hgroups
      dsimp only at hresp hgroups
      rw [List.map_append] at hgroups
      simp only [List.map_cons, List.map_nil, beq_self_eq_true, if_pos] at hgroups
      rw [hresp, hgroups]
      have hany : ∀ gid' : String,
          ((db.responses.map (fun r =>
            if r.id == strDrop vid 11 then { r with groupId := some f1 } else r)).any
            (fun r => r.id == strDrop vid 11 && r.groupId == some gid')) = true ↔
          gid' = f1 := by
        intro gid'
        constructor
        · intro hx
          rcases List.any_eq_true.mp hx with ⟨r', hr'm, hcond⟩
          rcases List.mem_map.mp hr'm with ⟨r0, hr0m, hr0e⟩
          have hcond' : r'.id = strDrop vid 11 ∧ r'.groupId = some gid' := by
            simpa using hcond
          have hr0id : r0.id = strDrop vid 11 := by
            by_cases h0 : (r0.id == strDrop vid 11) = true
            · simpa using h0
            · rw [if_neg h0] at hr0e
              subst hr0e
              exact hcond'.1
          have hr0resp : r0 = resp :=
            nodup_key_inj (fun r => r.id) hwfR hr0m hrespmem
              (hr0id.trans hrespid.symm)
          rw [if_pos (by simpa using hr0id)] at hr0e
          subst hr0e
          have hsome : (some f1 : Option String) = some gid' := hcond'.2
          injection hsome with h
          exact h.symm
        · intro hx
          rw [hx]
          refine List.any_eq_true.mpr ⟨{ resp with groupId := some f1 }, ?_, ?_⟩
          · exact List.mem_map.mpr ⟨resp, hrespmem,
              by rw [if_pos (by simpa using hrespid)]⟩
          · simp [hrespid]
      rw [List.find?_append]
      have hleftnone : (db.groups.map (fun x =>
          if x.id == f1 then { x with voteCount := total } else x)).find?
          (fun g => g.sessionId == sid &&
            (db.responses.map (fun r =>
              if r.id == strDrop vid 11 then { r with groupId := some f1 } else r)).any
              (fun r => r.id == strDrop vid 11 && r.groupId == some g.id)) = none := by
        rw [List.find?_eq_none]
        intro x hx
        rcases List.mem_map.mp hx with ⟨g0, hg0m, hg0e⟩
        intro hpx
        have hxid : x.id = g0.id := by
          rw [← hg0e, hupdid f1 g0]
        rw [Bool.and_eq_true] at hpx
        have hxf : x.id = f1 := (hany x.id).mp hpx.2
        exact hfresh g0 hg0m (hxid.symm.trans hxf)
      rw [hleftnone]
      dsimp only [Option.none_or]
      rw [List.find?_cons_of_pos _ (by
        rw [Bool.and_eq_true]
        exact ⟨by simp, (hany _).mpr rfl⟩)]

theorem resolveConnected_again {db dbr : DB} {sid vid f1 g1 : String}
    (hc : strStarts vid "connected-" = true)
    (hres : resolveTarget db sid vid f1 = (dbr, ResolveOutcome.ok g1)) :
    ∀ (db1 : DB), db1.responses = dbr.responses →
      ∀ f2, resolveTarget db1 sid vid f2 = (db1, ResolveOutcome.ok g1) := by
  intro db1 hresp f2
  simp only [resolveTarget] at hres ⊢
  rw [if_pos hc] at hres ⊢
  by_cases hg : ((strSplit (strDrop vid 10) "--").length == 0 ||
      (strSplit (strDrop vid 10) "--").any (fun i => !(isUuidFormat i))) = true
  · rw [if_pos hg] at hres
    exact absurd hres (by simp)
  · rw [if_neg hg] at hres ⊢
    cases hgrp : db.responses.filter (fun r =>
        (strSplit (strDrop vid 10) "--").contains r.id && r.sessionId == sid
          && r.groupId.isSome) with
    | cons r tail =>
      rw [hgrp] at hres
      dsimp only at hres
      rw [Prod.mk.injEq] at hres
      obtain ⟨hA, hB⟩ := hres
      rw [hresp, ← hA, hgrp]
      dsimp only
      rw [hB]
    | nil =>
      rw [hgrp] at hres
      dsimp only at hres
      cases hung : db.responses.filter (fun r =>
          (strSplit (strDrop vid 10) "--").contains r.id && r.sessionId == sid
            && r.groupId.isNone) with
      | nil =>
        rw [hung] at hres
        exact absurd hres (by simp)
      | cons r0 rest =>
        rw [hung] at hres
        dsimp only at hres
        rw [Prod.mk.injEq] at hres
        obtain ⟨hA, hB⟩ := hres
        rw [ResolveOutcome.ok.injEq] at hB
        rw [← hB, hresp, ← hA]
        dsimp only
        have hcong : ∀ r ∈ db.responses,
            ((fun r : Response => (strSplit (strDrop vid 10) "--").contains r.id
                && r.sessionId == sid && r.groupId.isSome) ∘
             (fun r : Response => if (strSplit (strDrop vid 10) "--").contains r.id
                then { r with groupId := some f1 } else r)) r =
            (fun r : Response => (strSplit (strDrop vid 10) "--").contains r.id
                && r.sessionId == sid && r.groupId.isNone) r := by
          intro r hr
          have hng := List.filter_eq_nil_iff.mp hgrp r hr
          simp only [Function.comp]
          by_cases hcont : ((strSplit (strDrop vid 10) "--").contains r.id) = true
          · cases hgid : r.groupId with
            | none =>
              rw [if_pos hcont]
              simp [hcont, hgid]
            | some gv =>
              have hsess : (r.sessionId == sid) = false := by
                cases hs : (r.sessionId == sid)
                · rfl
                · exfalso
                  apply hng
                  rw [hcont, hs, hgid]
                  rfl
              rw [if_pos hcont]
              simp [hcont, hsess, hgid]
          · have hcf : ((strSplit (strDrop vid 10) "--").contains r.id) = false := by
              cases hcc : ((strSplit (strDrop vid 10) "--").contains r.id)
              · rfl
              · exact absurd hcc hcont
            rw [if_neg hcont, hcf]
            rfl
        have hfm : ((db.responses.map (fun r : Response =>
            if (strSplit (strDrop vid 10) "--").contains r.id
              then { r with groupId := some f1 } else r)).filter
            (fun r : Response => (strSplit (strDrop vid 10) "--").contains r.id
              && r.sessionId == sid && r.groupId.isSome)) =
            ((db.responses.filter (fun r : Response =>
              (strSplit (strDrop vid 10) "--").contains r.id && r.sessionId == sid
                && r.groupId.isNone)).map (fun r : Response =>
              if (strSplit (strDrop vid 10) "--").contains r.id
                then { r with groupId := some f1 } else r)) := by
          rw [List.filter_map, List.filter_congr hcong]
        rw [hfm, hung]
        simp only [List.map_cons]
        have hr0m : r0 ∈ db.responses.filter (fun r : Response =>
            (strSplit (strDrop vid 10) "--").contains r.id && r.sessionId == sid
              && r.groupId.isNone) := by
          rw [hung]
          exact List.mem_cons_self r0 rest
        have hr0cont : ((strSplit (strDrop vid 10) "--").contains r0.id) = true := by
          have hp := (List.mem_filter.mp hr0m).2
          rw [Bool.and_eq_true] at hp
          rw [Bool.and_eq_true] at hp
          exact hp.1.1
        rw [if_pos hr0cont]
        rfl

/-- C2: For a cast_vote whose target is a virtual identifier: when a
referenced response is already assigned to a persisted group, that group
is reused as the resolution target and no new group is created (both for
individual-response and connected-chain identifiers); consequently two
successive completed cast_vote calls naming the same virtual identifier
resolve to exactly one persisted group. -/
theorem castVote_virtual_reuse :
    (∀ (db : DB) (sid vid rid f : String) (r : Response) (gid : String) (g : Group),
      strStarts vid "connected-" = false →
      strStarts vid "individual-" = true →
      strDrop vid 11 = rid →
      (db.responses.map (fun x => x.id)).Nodup →
      (db.groups.map (fun x => x.id)).Nodup →
      r ∈ db.responses → r.id = rid → r.groupId = some gid →
      g ∈ db.groups → g.id = gid → g.sessionId = sid →
      resolveTarget db sid vid f = (db, ResolveOutcome.ok gid)) ∧
    (∀ (db : DB) (sid vid f : String) (rids : List String),
      strStarts vid "connected-" = true →
      strSplit (strDrop vid 10) "--" = rids →
      (rids.length == 0 || rids.any (fun i => !(isUuidFormat i))) = false →
      db.responses.filter (fun x => rids.contains x.id && x.sessionId == sid
        && x.groupId.isSome) ≠ [] →
      (resolveTarget db sid vid f).1 = db ∧
      ∃ r ∈ db.responses, rids.contains r.id = true ∧ r.sessionId = sid ∧
        ∃ gid, r.groupId = some gid ∧
          (resolveTarget db sid vid f).2 = ResolveOutcome.ok gid) ∧
    (∀ (db db1 db2 : DB) (sid vid pid1 pid2 f1 f2 g1 g2 : String)
        (c1 c2 t1 t2 : Nat),
      (strStarts vid "connected-" = true ∨
        (strStarts vid "connected-" = false ∧ strStarts vid "individual-" = true)) →
      (db.responses.map (fun x => x.id)).Nodup →
      (∀ g ∈ db.groups, g.id ≠ f1) →
      castVote db sid pid1 vid c1 f1 = (db1, VoteOutcome.ok g1 t1) →
      castVote db1 sid pid2 vid c2 f2 = (db2, VoteOutcome.ok g2 t2) →
      g2 = g1 ∧ db2.groups.length = db1.groups.length) := by
  refine ⟨?_, ?_, ?_⟩
  · intro db sid vid rid f r gid g hc hi hrid hwfR hwfG hr hrid2 hgrp hg hgid hgsid
    simp only [resolveTarget]
    rw [if_neg (by simp [hc]), if_pos hi, hrid]
    have hfound : db.groups.find? (fun gq => gq.sessionId == sid &&
        db.responses.any (fun x => x.id == rid && x.groupId == some gq.id))
        = some g := by
      apply find?_eq_of_unique hg
      · rw [Bool.and_eq_true]
        refine ⟨by simp [hgsid], ?_⟩
        exact List.any_eq_true.mpr ⟨r, hr, by simp [hrid2, hgrp, hgid]⟩
      · intro b hb hpb
        rw [Bool.and_eq_true] at hpb
        rcases List.any_eq_true.mp hpb.2 with ⟨rq, hrqm, hrqc⟩
        have hrqc2 : rq.id = rid ∧ rq.groupId = some b.id := by simpa using hrqc
        have hrqr : rq = r := nodup_key_inj (fun x => x.id) hwfR hrqm hr
          (hrqc2.1.trans hrid2.symm)
        have hbid : b.id = gid := by
          have hsg := hrqc2.2
          rw [hrqr, hgrp] at hsg
          injection hsg with hh
          exact hh.symm
        exact nodup_key_inj (fun x => x.id) hwfG hb hg (hbid.trans hgid.symm)
    rw [hfound]
    dsimp only
    rw [hgid]
  · intro db sid vid f rids hc hsplit hguard hne
    cases hfl : db.responses.filter (fun x => rids.contains x.id
        && x.sessionId == sid && x.groupId.isSome) with
    | nil => exact absurd hfl hne
    | cons r tail =>
      have hrm : r ∈ db.responses.filter (fun x => rids.contains x.id
          && x.sessionId == sid && x.groupId.isSome) := by
        rw [hfl]
        exact List.mem_cons_self r tail
      obtain ⟨hrmem, hrp⟩ := List.mem_filter.mp hrm
      rw [Bool.and_eq_true] at hrp
      rw [Bool.and_eq_true] at hrp
      obtain ⟨⟨hcont, hsess⟩, hisSome⟩ := hrp
      obtain ⟨gid, hgid⟩ := Option.isSome_iff_exists.mp hisSome
      have hred : resolveTarget db sid vid f
          = (db, ResolveOutcome.ok (r.groupId.getD "")) := by
        simp only [resolveTarget]
        rw [if_pos hc, hsplit, if_neg (by simp [hguard]), hfl]
      refine ⟨by rw [hred], r, hrmem, hcont, by simpa using hsess, gid, hgid, ?_⟩
      rw [hred, hgid]
      rfl
  · intro db db1 db2 sid vid pid1 pid2 f1 f2 g1 g2 c1 c2 t1 t2
      hvirt hwfR hfresh h1 h2
    rcases castVote_ok_inv h1 with ⟨hc1le, dbr, hres1, happ1⟩
    rcases applyVote_ok_inv happ1 with ⟨-, hresp1, -, -, -, ⟨total, hgroups1⟩, -, -, -⟩
    have hstable : resolveTarget db1 sid vid f2 = (db1, ResolveOutcome.ok g1) := by
      rcases hvirt with hcT | ⟨hcF, hiT⟩
      · exact resolveConnected_again hcT hres1 db1 hresp1 f2
      · exact resolveIndividual_again hcF hiT hwfR hfresh hres1 db1 total
          hresp1 hgroups1 f2
    rcases castVote_ok_inv h2 with ⟨hc2le, dbr2, hres2, happ2⟩
    rw [hstable] at hres2
    rw [Prod.mk.injEq] at hres2
    obtain ⟨hd, ho⟩ := hres2
    rw [ResolveOutcome.ok.injEq] at ho
    refine ⟨ho.symm, ?_⟩
    rcases applyVote_ok_inv happ2 with ⟨-, -, -, -, -, ⟨total2, hgroups2⟩, -, -, -⟩
    rw [hgroups2, List.length_map, ← hd]

/-- Witness for C2: with r1 already grouped into g1 (`fxC`), resolving
individual-r1 reuses g1 and leaves the store unchanged; with a referenced
UUID response grouped (`fxD`), resolving the connected chain leaves the
store unchanged; and two successive completed cast_vote calls on `fxB`
naming the same connected chain resolve to the single group g9, the
second call creating no further group. -/
theorem castVote_virtual_reuse_witness :
    resolveTarget fxC "s1" "individual-r1" "g7" = (fxC, ResolveOutcome.ok "g1") ∧
    (resolveTarget fxD "s1" fxBChain "g8").1 = fxD ∧
    ((castVote ((castVote fxB "s1" "p1" fxBChain 1 "g9").1) "s1" "p2" fxBChain
      2 "g8").1).groups.length
      = ((castVote fxB "s1" "p1" fxBChain 1 "g9").1).groups.length := by
  refine ⟨?_, ?_, ?_⟩
  · exact castVote_virtual_reuse.1 fxC "s1" "individual-r1" "r1" "g7"
      ⟨"r1", "s1", "p2", "aaaaaaaaaaaaaaaaaaaaaaaaaaaaaaaaaaaaaaaa",
        Category.WENT_WELL, 7, 8, some "g1"⟩ "g1"
      ⟨"g1", "s1", "Group one", "#10b981", 0, 0, 3⟩
      (by decide) (by decide) (by decide) (by decide) (by decide) (by decide)
      (by decide) (by decide) (by decide) (by decide) (by decide)
  · exact (castVote_virtual_reuse.2.1 fxD "s1" fxBChain "g8"
      ["aaaaaaaa-aaaa-aaaa-aaaa-aaaaaaaaaaaa",
        "bbbbbbbb-bbbb-bbbb-bbbb-bbbbbbbbbbbb"]
      (by decide) (by decide) (by decide) (by decide)).1
  · exact (castVote_virtual_reuse.2.2 fxB
      ((castVote fxB "s1" "p1" fxBChain 1 "g9").1)
      ((castVote ((castVote fxB "s1" "p1" fxBChain 1 "g9").1) "s1" "p2" fxBChain
        2 "g8").1)
      "s1" fxBChain "p1" "p2" "g9" "g8" "g9" "g9" 1 2 1 3
      (Or.inl (by decide)) (by decide) (by decide) (by decide) (by decide)).2

end RetroFlow
